import Mathlib

/-!
Verification of the twiddle introspection pipeline (module loading,
decorator discovery, structural validation) as a shallow embedding.

The embedding follows `twiddle_sdk/introspection/validator.py` and
`twiddle_sdk/introspection/discovery.py`.  Python callables, classes and
modules are modelled by records carrying exactly the observations those
two files make of them (attribute presence, coroutine flag, signature,
annotations); `sys.modules` is modelled as an association list threaded
explicitly through the loader.
-/

namespace Twiddle

/-- The `LintError` dataclass of `validator.py`: rule identifier, severity
(`error`/`warning`/`info`), message and location (symbol name). -/
structure LintError where
  rule_id : String
  severity : String
  message : String
  location : String
deriving DecidableEq, Repr

/-- One parameter of a Python signature, as observed by the validator:
its name, whether its kind is `VAR_KEYWORD` (a `**kwargs` catch-all), and
its default value — `none` models `inspect.Parameter.empty` (no default),
`some b` models a present default where `b` records the result of
`isinstance(default, Parameter)`. -/
structure Param where
  name : String
  isVarKeyword : Bool
  default : Option Bool
deriving DecidableEq, Repr

/-- Result of `inspect.signature`: the ordered parameter list. -/
structure Signature where
  params : List Param
deriving DecidableEq, Repr

/-- A Python function as observed by `validate_activity`:
`hasActivityAttr` is `hasattr(func, "_twiddle_activity")`, `isAsync` is
`inspect.iscoroutinefunction(func)`, `signature` is `none` when
`inspect.signature` raises `ValueError`/`TypeError` (exotic callables),
`returnAnnotated` is `"return" in func.__annotations__`. -/
structure PyFunc where
  name : String
  hasActivityAttr : Bool
  isAsync : Bool
  signature : Option Signature
  returnAnnotated : Bool
deriving DecidableEq, Repr

/-- A Python class as observed by `validate_workflow`:
`hasWorkflowAttr` is `hasattr(cls, "_twiddle_workflow")`, `hasRunAttr` is
`hasattr(cls, "run")`, `runCallable` is `callable(getattr(cls, "run", None))`
(in Python, `False` whenever `hasRunAttr` is `False`, since `None` is not
callable; we keep the two observations separate and test both, as the
source does). -/
structure PyClass where
  name : String
  hasWorkflowAttr : Bool
  hasRunAttr : Bool
  runCallable : Bool
deriving DecidableEq, Repr

/-- TWD001 finding (missing `@activity` decorator). -/
def twd001 (name : String) : LintError :=
  ⟨"TWD001", "error", "Activity must have @activity decorator", name⟩

/-- TWD005 finding (missing `@workflow` decorator). -/
def twd005 (name : String) : LintError :=
  ⟨"TWD005", "error", "Workflow class must have @workflow decorator", name⟩

/-- TWD006 finding (missing `run()` method). -/
def twd006 (name : String) : LintError :=
  ⟨"TWD006", "error", "Workflow must have a run() method", name⟩

/-- The target-specific async block of `validate_activity`
(`validator.py` lines 64-88): under `target == "temporal"` a sync function
yields TWD002 (error); under `target == "airflow"` an async function
yields TWD010 (warning); any other target emits nothing. -/
def activityAsyncChecks (func : PyFunc) (target : String) : List LintError :=
  if target == "temporal" then
    if !func.isAsync then
      [⟨"TWD002", "error", "Activity function must be async def for Temporal", func.name⟩]
    else []
  else if target == "airflow" then
    if func.isAsync then
      [⟨"TWD010", "warning", "Airflow tasks typically use sync functions (async is experimental)", func.name⟩]
    else []
  else []

/-- The signature-dependent block of `validate_activity` (lines 90-121):
inside a `try` on `inspect.signature`; when the signature is unavailable
the whole block is skipped (`except (ValueError, TypeError): pass`).
Otherwise TWD003 (warning) fires when no parameter is named `input_data`,
and, for the airflow target only, TWD011 (info) fires when no parameter is
a `**kwargs` catch-all — appended in that order. -/
def activitySignatureChecks (func : PyFunc) (target : String) : List LintError :=
  match func.signature with
  | none => []
  | some sig =>
    let inputErrs :=
      if sig.params.any (fun p => p.name == "input_data") then []
      else [⟨"TWD003", "warning", "Activity should accept input_data parameter", func.name⟩]
    let kwargsErrs :=
      if target == "airflow" && !sig.params.any (fun p => p.isVarKeyword) then
        [⟨"TWD011", "info", "Airflow tasks should accept **kwargs for task context", func.name⟩]
      else []
    inputErrs ++ kwargsErrs

/-- The return-annotation check of `validate_activity` (lines 123-133):
TWD004 (warning) when `"return"` is absent from `__annotations__`. -/
def activityReturnCheck (func : PyFunc) : List LintError :=
  if func.returnAnnotated then []
  else [⟨"TWD004", "warning", "Activity should have return type annotation (-> Dict[str, Any])", func.name⟩]

/-- The `Parameter()`-usage block of `validate_activity` (lines 135-157):
guarded by its own `try` which also catches failure of
`from twiddle_dsl import Parameter` — `paramImportOk` records whether
that import succeeds in the host process.  For every parameter that is not
`self`/`cls`/`input_data`, is not `**kwargs`, and has a default that is
not a `Parameter` instance, TWD007 (info) fires, once per such parameter
in signature order. -/
def activityParameterChecks (paramImportOk : Bool) (func : PyFunc) : List LintError :=
  if !paramImportOk then []
  else
    match func.signature with
    | none => []
    | some sig =>
      sig.params.filterMap (fun p =>
        if p.name == "self" || p.name == "cls" || p.name == "input_data" then none
        else if p.isVarKeyword then none
        else
          match p.default with
          | none => none
          | some isParamInstance =>
            if isParamInstance then none
            else some ⟨"TWD007", "info",
              "Parameter \"" ++ p.name ++ "\" should use Parameter() class for UI metadata",
              func.name⟩)

/-- Model of `validate_activity(func, target)` of `validator.py`: a missing
`_twiddle_activity` attribute short-circuits to the single TWD001 error;
otherwise the four blocks run in source order and their findings are
appended in that order. -/
def validate_activity (paramImportOk : Bool) (func : PyFunc) (target : String) : List LintError :=
  if !func.hasActivityAttr then [twd001 func.name]
  else
    activityAsyncChecks func target
      ++ activitySignatureChecks func target
      ++ activityReturnCheck func
      ++ activityParameterChecks paramImportOk func

/-- Model of `validate_workflow(cls, target)` of `validator.py`: a missing
`_twiddle_workflow` attribute short-circuits to the single TWD005 error;
otherwise TWD006 fires iff the class has no callable `run` member.  The
`target` argument is accepted but never consulted. -/
def validate_workflow (cls : PyClass) (_target : String) : List LintError :=
  if !cls.hasWorkflowAttr then [twd005 cls.name]
  else
    if !cls.hasRunAttr || !cls.runCallable then [twd006 cls.name]
    else []

/-! ### Discovery (`discovery.py`) -/

/-- Kind of a module member as classified by `inspect.isfunction` /
`inspect.isclass`. -/
inductive MemberKind
  | function
  | pyClass
  | other
deriving DecidableEq, Repr

/-- A member of a loaded module's namespace, as observed by the discovery
functions: its bound name, its kind, whether it carries the
`_twiddle_activity` / `_twiddle_workflow` attribute, and whether it was
defined in this module's own source (as opposed to merely imported into
its namespace) — `inspect.getmembers` enumerates both alike. -/
structure Member where
  name : String
  kind : MemberKind
  hasActivityAttr : Bool
  hasWorkflowAttr : Bool
  definedInModule : Bool
deriving DecidableEq, Repr

/-- A loaded Python module: its namespace members, in the enumeration
order used by `inspect.getmembers` (sorted by name; the order is the
host's and only the sequence contents matter to the claims below). -/
structure Module where
  members : List Member
deriving DecidableEq, Repr

/-- Model of `discover_activities(module)`: every member for which
`inspect.isfunction` holds and `hasattr(obj, "_twiddle_activity")` is
true, in enumeration order. -/
def discover_activities (m : Module) : List Member :=
  m.members.filter (fun o => o.kind == MemberKind.function && o.hasActivityAttr)

/-- Model of `discover_workflows(module)`: every member for which
`inspect.isclass` holds and `hasattr(obj, "_twiddle_workflow")` is true,
in enumeration order. -/
def discover_workflows (m : Module) : List Member :=
  m.members.filter (fun o => o.kind == MemberKind.pyClass && o.hasWorkflowAttr)

/-! ### Module loader (`load_module_from_path`) -/

/-- The observations `load_module_from_path` makes of its `path` argument:
`str(path)`, `path.stem`, `path.suffix`, `path.exists()`. -/
structure PathInfo where
  pathStr : String
  stem : String
  suffix : String
  existsOnDisk : Bool
deriving DecidableEq, Repr

/-- The runtime-dependent part of one `load_module_from_path` call:
`pathId` is the value of `id(path)` for the freshly constructed `Path`
object (chosen by the interpreter's allocator, not by the code);
`specOk` is whether `importlib.util.spec_from_file_location` produces a
spec with a loader; `execResult` is the outcome of executing the module
body — the final module namespace on success, the exception's message on
failure. -/
structure LoadEnv where
  pathId : Nat
  specOk : Bool
  execResult : Except String Module
deriving Repr

/-- The exceptions `load_module_from_path` raises, each carrying its
message: `FileNotFoundError`, `ValueError` (not a `.py` file), and
`ImportError` (spec creation or module-body failure). -/
inductive LoadError
  | fileNotFound (msg : String)
  | notPythonFile (msg : String)
  | importError (msg : String)
deriving DecidableEq, Repr

/-- The `str(e)` message of a raised load exception. -/
def LoadError.message : LoadError → String
  | .fileNotFound msg => msg
  | .notPythonFile msg => msg
  | .importError msg => msg

/-- Model of `sys.modules`: modelled as an association list from module name to
module, in insertion order, with unique keys maintained by `regSet`. -/
abbrev Registry := List (String × Module)

/-- Python dict assignment `sys.modules[k] = v`: overwrites the value in
place when the key is present, appends otherwise. -/
def regSet (reg : Registry) (k : String) (v : Module) : Registry :=
  if reg.any (fun kv => kv.1 == k) then
    reg.map (fun kv => if kv.1 == k then (k, v) else kv)
  else reg ++ [(k, v)]

/-- Python `del sys.modules[k]`: removes the entry for `k`. -/
def regDel (reg : Registry) (k : String) : Registry :=
  reg.filter (fun kv => kv.1 != k)

/-- The module object returned by `importlib.util.module_from_spec`
before its body has executed: an empty namespace. -/
def emptyModule : Module := ⟨[]⟩

/-- The synthetic module name of `discovery.py` line 38:
`f"twiddle_loaded_{path.stem}_{id(path)}"`. -/
def module_name (stem : String) (pathId : Nat) : String :=
  "twiddle_loaded_" ++ stem ++ "_" ++ toString pathId

/-- The `ImportError` message wrapping a module-body failure
(`discovery.py` line 51): `f"Error loading module {path}: {e}"`. -/
def loadErrorMessage (pathStr msg : String) : String :=
  "Error loading module " ++ pathStr ++ ": " ++ msg

/-- Model of `load_module_from_path(path)` of `discovery.py`, with `sys.modules`
threaded explicitly: checks existence and the `.py` suffix, builds the
synthetic name, creates the spec, registers the fresh module, executes
the body, and on failure deletes the registration and raises an
`ImportError` wrapping the original message.  On success the executed
module stays registered (registration happens before execution; the
module object is filled in place, so the registered value is the final
namespace). -/
def load_module_from_path (reg : Registry) (p : PathInfo) (env : LoadEnv) :
    Registry × Except LoadError Module :=
  if !p.existsOnDisk then
    (reg, .error (.fileNotFound ("Module not found: " ++ p.pathStr)))
  else if p.suffix != ".py" then
    (reg, .error (.notPythonFile ("Not a Python file: " ++ p.pathStr)))
  else if !env.specOk then
    (reg, .error (.importError ("Cannot create module spec for: " ++ p.pathStr)))
  else
    let name := module_name p.stem env.pathId
    match env.execResult with
    | .ok m => (regSet reg name m, .ok m)
    | .error e =>
      (regDel (regSet reg name emptyModule) name,
       .error (.importError (loadErrorMessage p.pathStr e)))

/-! ### Directory discovery (`discover_all_in_directory`) -/

/-- One load-failure record of the `errors` list: the dict
`{"file": str(py_file), "error": str(e)}`. -/
structure FileError where
  file : String
  error : String
deriving DecidableEq, Repr

/-- The dict returned by `discover_all_in_directory`. -/
structure DiscoveryResult where
  activities : List Member
  workflows : List Member
  errors : List FileError
deriving DecidableEq, Repr

/-- Whether `pre` is a prefix of `l`, on character lists. -/
def startsWithChars : List Char → List Char → Bool
  | [], _ => true
  | _ :: _, [] => false
  | a :: as, b :: bs => a == b && startsWithChars as bs

/-- Whether `needle` occurs as a contiguous run of `hay`, on character
lists. -/
def containsChars : List Char → List Char → Bool
  | [], needle => needle.isEmpty
  | a :: tl, needle => startsWithChars needle (a :: tl) || containsChars tl needle

/-- Model of `needle in hay` on Python strings. -/
def strContains (hay needle : String) : Bool :=
  containsChars hay.data needle.data

/-- Model of `s.startswith(pre)` on Python strings. -/
def strStarts (s pre : String) : Bool :=
  startsWithChars pre.data s.data

/-- One file yielded by `directory.rglob("*.py")`: its `str(py_file)`,
`py_file.name`, `py_file.stem`, and the runtime environment of the
`load_module_from_path` call it will receive.  `rglob("*.py")` only
yields existing files with suffix `.py`. -/
structure ScanFile where
  pathStr : String
  fileName : String
  stem : String
  env : LoadEnv
deriving Repr

/-- The `PathInfo` of a file produced by `rglob("*.py")`. -/
def scanPathInfo (f : ScanFile) : PathInfo :=
  ⟨f.pathStr, f.stem, ".py", true⟩

/-- The skip condition of `discovery.py` line 110:
`"__pycache__" in str(py_file) or py_file.name.startswith(".")`. -/
def skipsFile (f : ScanFile) : Bool :=
  strContains f.pathStr "__pycache__" || strStarts f.fileName "."

/-- The loop body of `discover_all_in_directory` over the `rglob`
sequence, with `sys.modules` threaded through the per-file
`load_module_from_path` calls: a skipped file contributes nothing; a
successful load contributes its discovered activities and workflows; a
raised exception is caught and recorded as one `FileError` keyed by the
file's path, and the scan continues. -/
def discover_all_in_directory (reg : Registry) :
    List ScanFile → Registry × DiscoveryResult
  | [] => (reg, ⟨[], [], []⟩)
  | f :: rest =>
    if skipsFile f then discover_all_in_directory reg rest
    else
      match load_module_from_path reg (scanPathInfo f) f.env with
      | (reg1, .ok m) =>
        let (reg2, r) := discover_all_in_directory reg1 rest
        (reg2, ⟨discover_activities m ++ r.activities,
                discover_workflows m ++ r.workflows, r.errors⟩)
      | (reg1, .error e) =>
        let (reg2, r) := discover_all_in_directory reg1 rest
        (reg2, ⟨r.activities, r.workflows,
                ⟨f.pathStr, e.message⟩ :: r.errors⟩)

/-! ### Helper lemmas about the validator's blocks -/

/-- Declaration rank of an activity rule in the source order of
`validate_activity`: the async block (TWD002/TWD010) first, then TWD003,
TWD011, TWD004, TWD007. -/
def ruleRank : String → Nat
  | "TWD002" => 0
  | "TWD010" => 0
  | "TWD003" => 1
  | "TWD011" => 2
  | "TWD004" => 3
  | "TWD007" => 4
  | _ => 5

theorem rule_of_mem_asyncChecks {f : PyFunc} {t : String} {e : LintError}
    (h : e ∈ activityAsyncChecks f t) :
    e.rule_id = "TWD002" ∨ e.rule_id = "TWD010" := by
  unfold activityAsyncChecks at h
  split_ifs at h <;> simp_all

theorem rule_of_mem_asyncChecks_airflow {f : PyFunc} {e : LintError}
    (h : e ∈ activityAsyncChecks f "airflow") :
    e.rule_id = "TWD010" := by
  unfold activityAsyncChecks at h
  split_ifs at h <;> simp_all

theorem rule_of_mem_sigChecks {f : PyFunc} {t : String} {e : LintError}
    (h : e ∈ activitySignatureChecks f t) :
    e.rule_id = "TWD003" ∨ e.rule_id = "TWD011" := by
  unfold activitySignatureChecks at h
  rcases hfs : f.signature with _ | sig <;> rw [hfs] at h
  · simp at h
  · simp only [] at h
    rcases List.mem_append.mp h with h1 | h1 <;> split_ifs at h1 <;> simp_all

theorem rule_of_mem_retCheck {f : PyFunc} {e : LintError}
    (h : e ∈ activityReturnCheck f) :
    e.rule_id = "TWD004" := by
  unfold activityReturnCheck at h
  split_ifs at h <;> simp_all

theorem rule_of_mem_paramChecks {pok : Bool} {f : PyFunc} {e : LintError}
    (h : e ∈ activityParameterChecks pok f) :
    e.rule_id = "TWD007" := by
  unfold activityParameterChecks at h
  split_ifs at h
  · simp at h
  · rcases hfs : f.signature with _ | sig <;> rw [hfs] at h
    · simp at h
    · rcases List.mem_filterMap.mp h with ⟨p, _, hp⟩
      split_ifs at hp
      · rcases hd : p.default with _ | b <;> rw [hd] at hp
        · cases hp
        · cases b <;> simp_all
          exact hp ▸ rfl

/-- With the decorator attribute present, `validate_activity` is the
concatenation of its four blocks in source order. -/
theorem validate_activity_eq_blocks {pok : Bool} {f : PyFunc} {t : String}
    (h : f.hasActivityAttr = true) :
    validate_activity pok f t =
      activityAsyncChecks f t ++ activitySignatureChecks f t
        ++ activityReturnCheck f ++ activityParameterChecks pok f := by
  simp [validate_activity, h]

/-! ### Claim theorems -/

/-- Claim C4: For every function lacking the activity metadata attribute
and every target, `validate_activity` returns exactly the single TWD001
error finding and evaluates no further rules; symmetrically, for every
class lacking the workflow metadata attribute, `validate_workflow`
returns exactly the single TWD005 error finding and evaluates no further
rules. -/
theorem missing_decorator_short_circuits (pok : Bool) (f : PyFunc) (c : PyClass)
    (t u : String)
    (hf : f.hasActivityAttr = false) (hc : c.hasWorkflowAttr = false) :
    validate_activity pok f t = [⟨"TWD001", "error",
        "Activity must have @activity decorator", f.name⟩] ∧
    validate_workflow c u = [⟨"TWD005", "error",
        "Workflow class must have @workflow decorator", c.name⟩] := by
  constructor
  · simp [validate_activity, hf, twd001]
  · simp [validate_workflow, hc, twd005]

theorem missing_decorator_short_circuits_witness :
    ((⟨"plain_fn", false, false, none, false⟩ : PyFunc).hasActivityAttr = false) ∧
    ((⟨"PlainCls", false, true, true⟩ : PyClass).hasWorkflowAttr = false) ∧
    (validate_activity true ⟨"plain_fn", false, false, none, false⟩ "temporal" =
        [⟨"TWD001", "error", "Activity must have @activity decorator", "plain_fn"⟩] ∧
     validate_workflow ⟨"PlainCls", false, true, true⟩ "airflow" =
        [⟨"TWD005", "error", "Workflow class must have @workflow decorator", "PlainCls"⟩]) :=
  ⟨rfl, rfl,
   missing_decorator_short_circuits true ⟨"plain_fn", false, false, none, false⟩
     ⟨"PlainCls", false, true, true⟩ "temporal" "airflow" rfl rfl⟩

/-- Claim C3: For every class carrying the workflow metadata attribute that
has no callable `run` member, and for either target framework,
`validate_workflow` returns exactly one finding: the TWD006 error; no
other workflow rule fires before it. -/
theorem workflow_missing_run_single_finding (c : PyClass) (t : String)
    (hattr : c.hasWorkflowAttr = true)
    (hrun : c.hasRunAttr = false ∨ c.runCallable = false) :
    validate_workflow c t =
      [⟨"TWD006", "error", "Workflow must have a run() method", c.name⟩] := by
  rcases hrun with h | h <;> simp [validate_workflow, hattr, h, twd006]

theorem workflow_missing_run_single_finding_witness :
    ((⟨"Pipeline", true, false, false⟩ : PyClass).hasWorkflowAttr = true) ∧
    ((⟨"Pipeline", true, false, false⟩ : PyClass).hasRunAttr = false ∨
     (⟨"Pipeline", true, false, false⟩ : PyClass).runCallable = false) ∧
    validate_workflow ⟨"Pipeline", true, false, false⟩ "airflow" =
      [⟨"TWD006", "error", "Workflow must have a run() method", "Pipeline"⟩] :=
  ⟨rfl, Or.inl rfl,
   workflow_missing_run_single_finding ⟨"Pipeline", true, false, false⟩ "airflow"
     rfl (Or.inl rfl)⟩

/-- Claim C2: For every function carrying the activity metadata attribute
that is not asynchronous, `validate_activity` with target `"temporal"`
returns a finding with rule code TWD002 and severity `"error"`, while
`validate_activity` on the same function with target `"airflow"` returns
no finding with code TWD002. -/
theorem sync_activity_temporal_vs_airflow (pok : Bool) (f : PyFunc)
    (hattr : f.hasActivityAttr = true) (hsync : f.isAsync = false) :
    (∃ e ∈ validate_activity pok f "temporal",
        e.rule_id = "TWD002" ∧ e.severity = "error") ∧
    (∀ e ∈ validate_activity pok f "airflow", e.rule_id ≠ "TWD002") := by
  constructor
  · refine ⟨⟨"TWD002", "error",
      "Activity function must be async def for Temporal", f.name⟩, ?_, rfl, rfl⟩
    rw [validate_activity_eq_blocks hattr]
    apply List.mem_append_left
    apply List.mem_append_left
    apply List.mem_append_left
    simp [activityAsyncChecks, hsync]
  · intro e he
    rw [validate_activity_eq_blocks hattr] at he
    simp only [List.mem_append] at he
    rcases he with ((h | h) | h) | h
    · simp [rule_of_mem_asyncChecks_airflow h]
    · rcases rule_of_mem_sigChecks h with h2 | h2 <;> simp [h2]
    · simp [rule_of_mem_retCheck h]
    · simp [rule_of_mem_paramChecks h]

theorem sync_activity_temporal_vs_airflow_witness :
    ((⟨"sync_fn", true, false, some ⟨[]⟩, false⟩ : PyFunc).hasActivityAttr = true) ∧
    ((⟨"sync_fn", true, false, some ⟨[]⟩, false⟩ : PyFunc).isAsync = false) ∧
    ((∃ e ∈ validate_activity true ⟨"sync_fn", true, false, some ⟨[]⟩, false⟩ "temporal",
        e.rule_id = "TWD002" ∧ e.severity = "error") ∧
     (∀ e ∈ validate_activity true ⟨"sync_fn", true, false, some ⟨[]⟩, false⟩ "airflow",
        e.rule_id ≠ "TWD002")) :=
  ⟨rfl, rfl,
   sync_activity_temporal_vs_airflow true ⟨"sync_fn", true, false, some ⟨[]⟩, false⟩ rfl rfl⟩

/-- Claim C6: `validate_activity` is total (it is a Lean function, so it
never raises) and, for every callable carrying the activity metadata
attribute whose signature cannot be introspected, the three
signature-dependent rules TWD003, TWD011 and TWD007 are silently
skipped while the async block and the return-annotation check are still
evaluated and their findings returned. -/
theorem validate_activity_no_signature (pok : Bool) (f : PyFunc) (t : String)
    (hattr : f.hasActivityAttr = true) (hsig : f.signature = none) :
    validate_activity pok f t = activityAsyncChecks f t ++ activityReturnCheck f ∧
    ∀ e ∈ validate_activity pok f t,
      e.rule_id ≠ "TWD003" ∧ e.rule_id ≠ "TWD011" ∧ e.rule_id ≠ "TWD007" := by
  have hB : activitySignatureChecks f t = [] := by
    simp [activitySignatureChecks, hsig]
  have hD : activityParameterChecks pok f = [] := by
    cases pok <;> simp [activityParameterChecks, hsig]
  have heq : validate_activity pok f t =
      activityAsyncChecks f t ++ activityReturnCheck f := by
    rw [validate_activity_eq_blocks hattr, hB, hD]
    simp
  refine ⟨heq, fun e he => ?_⟩
  rw [heq] at he
  rcases List.mem_append.mp he with h | h
  · rcases rule_of_mem_asyncChecks h with h2 | h2 <;> simp [h2]
  · simp [rule_of_mem_retCheck h]

theorem validate_activity_no_signature_witness :
    ((⟨"builtin_fn", true, false, none, true⟩ : PyFunc).hasActivityAttr = true) ∧
    ((⟨"builtin_fn", true, false, none, true⟩ : PyFunc).signature = none) ∧
    (validate_activity true ⟨"builtin_fn", true, false, none, true⟩ "temporal" =
        activityAsyncChecks ⟨"builtin_fn", true, false, none, true⟩ "temporal"
          ++ activityReturnCheck ⟨"builtin_fn", true, false, none, true⟩ ∧
     ∀ e ∈ validate_activity true ⟨"builtin_fn", true, false, none, true⟩ "temporal",
        e.rule_id ≠ "TWD003" ∧ e.rule_id ≠ "TWD011" ∧ e.rule_id ≠ "TWD007") :=
  ⟨rfl, rfl,
   validate_activity_no_signature true ⟨"builtin_fn", true, false, none, true⟩
     "temporal" rfl rfl⟩

theorem sorted_of_all_eq {l : List Nat} {c : Nat} (h : ∀ x ∈ l, x = c) :
    l.Sorted (· ≤ ·) := by
  induction l with
  | nil => simp
  | cons a tl ih =>
    rw [List.sorted_cons]
    refine ⟨fun b hb => ?_, ih (fun x hx => h x (List.mem_cons_of_mem _ hx))⟩
    rw [h a (List.mem_cons_self a tl), h b (List.mem_cons_of_mem _ hb)]

theorem sigChecks_rank_sorted (f : PyFunc) (t : String) :
    ((activitySignatureChecks f t).map (fun e => ruleRank e.rule_id)).Sorted (· ≤ ·) := by
  unfold activitySignatureChecks
  rcases f.signature with _ | sig
  · simp
  · dsimp only
    rw [List.map_append]
    refine List.pairwise_append.mpr ⟨?_, ?_, ?_⟩
    · split_ifs
      · simp
      · exact List.sorted_singleton _
    · split_ifs
      · exact List.sorted_singleton _
      · simp
    · intro a ha b hb
      split_ifs at ha hb <;> simp_all
      decide

/-- Claim C5: For every function carrying the activity metadata attribute
and every target, the findings of `validate_activity` appear in the fixed
rule-declaration order: the async rule (TWD002 or TWD010) first, then
TWD003, then TWD011, then TWD004, then TWD007; in particular the
validator never reorders findings by severity.  Stated as: the sequence
of declaration ranks of the returned findings is sorted. -/
theorem validate_activity_rule_declaration_order (pok : Bool) (f : PyFunc) (t : String)
    (hattr : f.hasActivityAttr = true) :
    ((validate_activity pok f t).map (fun e => ruleRank e.rule_id)).Sorted (· ≤ ·) := by
  have hA : ∀ x ∈ (activityAsyncChecks f t).map (fun e => ruleRank e.rule_id), x = 0 := by
    intro x hx
    rcases List.mem_map.mp hx with ⟨e, he, rfl⟩
    rcases rule_of_mem_asyncChecks he with h | h <;> rw [h] <;> rfl
  have hB : ∀ x ∈ (activitySignatureChecks f t).map (fun e => ruleRank e.rule_id),
      1 ≤ x ∧ x ≤ 2 := by
    intro x hx
    rcases List.mem_map.mp hx with ⟨e, he, rfl⟩
    rcases rule_of_mem_sigChecks he with h | h <;> rw [h] <;> exact ⟨by decide, by decide⟩
  have hC : ∀ x ∈ (activityReturnCheck f).map (fun e => ruleRank e.rule_id), x = 3 := by
    intro x hx
    rcases List.mem_map.mp hx with ⟨e, he, rfl⟩
    rw [rule_of_mem_retCheck he]
    decide
  have hD : ∀ x ∈ (activityParameterChecks pok f).map (fun e => ruleRank e.rule_id),
      x = 4 := by
    intro x hx
    rcases List.mem_map.mp hx with ⟨e, he, rfl⟩
    rw [rule_of_mem_paramChecks he]
    decide
  rw [validate_activity_eq_blocks hattr]
  rw [List.map_append, List.map_append, List.map_append]
  refine List.pairwise_append.mpr ⟨List.pairwise_append.mpr
    ⟨List.pairwise_append.mpr ⟨sorted_of_all_eq hA, sigChecks_rank_sorted f t, ?_⟩,
      sorted_of_all_eq hC, ?_⟩, sorted_of_all_eq hD, ?_⟩
  · intro a ha b hb
    rw [hA a ha]
    exact Nat.zero_le _
  · intro a ha b hb
    rw [hC b hb]
    rcases List.mem_append.mp ha with h | h
    · rw [hA a h]; norm_num
    · rcases hB a h with ⟨_, h2⟩; omega
  · intro a ha b hb
    rw [hD b hb]
    rcases List.mem_append.mp ha with h | h
    · rcases List.mem_append.mp h with h3 | h3
      · rw [hA a h3]; norm_num
      · rcases hB a h3 with ⟨_, h2⟩; omega
    · rw [hC a h]; norm_num

theorem validate_activity_rule_declaration_order_witness :
    ((⟨"full_fn", true, false,
        some ⟨[⟨"retries", false, some false⟩]⟩, false⟩ : PyFunc).hasActivityAttr = true) ∧
    ((validate_activity true
        ⟨"full_fn", true, false, some ⟨[⟨"retries", false, some false⟩]⟩, false⟩
        "airflow").map (fun e => ruleRank e.rule_id)).Sorted (· ≤ ·) :=
  ⟨rfl,
   validate_activity_rule_declaration_order true
     ⟨"full_fn", true, false, some ⟨[⟨"retries", false, some false⟩]⟩, false⟩
     "airflow" rfl⟩

/-- Claim C1: For every loaded module, `discover_activities` returns
exactly the function members carrying `_twiddle_activity` and
`discover_workflows` exactly the class members carrying
`_twiddle_workflow`: for a source file defining exactly `N` decorated
activity functions and `M` decorated workflow classes (every member
defined in the module itself), the two sequences have lengths `N` and
`M`, and a member without the decorator attribute is never included in
either sequence. -/
theorem discovery_exact_counts (m : Module) (N M : Nat)
    (_hdef : ∀ o ∈ m.members, o.definedInModule = true)
    (hN : m.members.countP
      (fun o => o.kind == MemberKind.function && o.hasActivityAttr) = N)
    (hM : m.members.countP
      (fun o => o.kind == MemberKind.pyClass && o.hasWorkflowAttr) = M) :
    (discover_activities m).length = N ∧
    (discover_workflows m).length = M ∧
    (∀ o, o ∈ discover_activities m ↔
      o ∈ m.members ∧ o.kind = MemberKind.function ∧ o.hasActivityAttr = true) ∧
    (∀ o, o ∈ discover_workflows m ↔
      o ∈ m.members ∧ o.kind = MemberKind.pyClass ∧ o.hasWorkflowAttr = true) := by
  refine ⟨?_, ?_, fun o => ?_, fun o => ?_⟩
  · rw [discover_activities, ← List.countP_eq_length_filter, hN]
  · rw [discover_workflows, ← List.countP_eq_length_filter, hM]
  · rw [discover_activities, List.mem_filter]
    simp
  · rw [discover_workflows, List.mem_filter]
    simp

theorem discovery_exact_counts_witness :
    (∀ o ∈ (⟨[⟨"helper", MemberKind.function, false, false, true⟩,
              ⟨"act_one", MemberKind.function, true, false, true⟩,
              ⟨"act_two", MemberKind.function, true, false, true⟩,
              ⟨"Wf", MemberKind.pyClass, false, true, true⟩,
              ⟨"Plain", MemberKind.pyClass, false, false, true⟩]⟩ : Module).members,
        o.definedInModule = true) ∧
    ((discover_activities ⟨[⟨"helper", MemberKind.function, false, false, true⟩,
              ⟨"act_one", MemberKind.function, true, false, true⟩,
              ⟨"act_two", MemberKind.function, true, false, true⟩,
              ⟨"Wf", MemberKind.pyClass, false, true, true⟩,
              ⟨"Plain", MemberKind.pyClass, false, false, true⟩]⟩).length = 2 ∧
     (discover_workflows ⟨[⟨"helper", MemberKind.function, false, false, true⟩,
              ⟨"act_one", MemberKind.function, true, false, true⟩,
              ⟨"act_two", MemberKind.function, true, false, true⟩,
              ⟨"Wf", MemberKind.pyClass, false, true, true⟩,
              ⟨"Plain", MemberKind.pyClass, false, false, true⟩]⟩).length = 1 ∧
     (∀ o, o ∈ discover_activities ⟨[⟨"helper", MemberKind.function, false, false, true⟩,
              ⟨"act_one", MemberKind.function, true, false, true⟩,
              ⟨"act_two", MemberKind.function, true, false, true⟩,
              ⟨"Wf", MemberKind.pyClass, false, true, true⟩,
              ⟨"Plain", MemberKind.pyClass, false, false, true⟩]⟩ ↔
        o ∈ (⟨[⟨"helper", MemberKind.function, false, false, true⟩,
              ⟨"act_one", MemberKind.function, true, false, true⟩,
              ⟨"act_two", MemberKind.function, true, false, true⟩,
              ⟨"Wf", MemberKind.pyClass, false, true, true⟩,
              ⟨"Plain", MemberKind.pyClass, false, false, true⟩]⟩ : Module).members ∧
          o.kind = MemberKind.function ∧ o.hasActivityAttr = true) ∧
     (∀ o, o ∈ discover_workflows ⟨[⟨"helper", MemberKind.function, false, false, true⟩,
              ⟨"act_one", MemberKind.function, true, false, true⟩,
              ⟨"act_two", MemberKind.function, true, false, true⟩,
              ⟨"Wf", MemberKind.pyClass, false, true, true⟩,
              ⟨"Plain", MemberKind.pyClass, false, false, true⟩]⟩ ↔
        o ∈ (⟨[⟨"helper", MemberKind.function, false, false, true⟩,
              ⟨"act_one", MemberKind.function, true, false, true⟩,
              ⟨"act_two", MemberKind.function, true, false, true⟩,
              ⟨"Wf", MemberKind.pyClass, false, true, true⟩,
              ⟨"Plain", MemberKind.pyClass, false, false, true⟩]⟩ : Module).members ∧
          o.kind = MemberKind.pyClass ∧ o.hasWorkflowAttr = true)) :=
  ⟨by decide,
   discovery_exact_counts _ 2 1 (by decide) (by decide) (by decide)⟩

/-- A member defined in the module's own source. -/
def localTask : Member := ⟨"local_task", MemberKind.function, true, false, true⟩

/-- A decorated member merely imported into the module's namespace. -/
def importedTask : Member := ⟨"imported_task", MemberKind.function, true, false, false⟩

/-- A module defining one decorated activity and importing another. -/
def importerModule : Module := ⟨[localTask, importedTask]⟩

/-- Claim C10: Discovery membership is decided solely by the presence of
the metadata attribute, not by where the member was defined: a decorated
member merely imported into the module's namespace is still included, so
a file's discovery counts can exceed the number of decorated definitions
the file itself contains (`importerModule` defines one decorated
activity, imports a second, and discovery returns both). -/
theorem discovery_ignores_definition_site (m : Module) (o : Member)
    (hmem : o ∈ m.members) :
    (o.kind = MemberKind.function → o.hasActivityAttr = true →
      o ∈ discover_activities m) ∧
    (o.kind = MemberKind.pyClass → o.hasWorkflowAttr = true →
      o ∈ discover_workflows m) ∧
    (discover_activities importerModule).length = 2 ∧
    importerModule.members.countP
      (fun x => x.definedInModule && x.kind == MemberKind.function
        && x.hasActivityAttr) = 1 := by
  refine ⟨fun hk ha => ?_, fun hk hw => ?_, by decide, by decide⟩
  · rw [discover_activities, List.mem_filter]
    simp [hmem, hk, ha]
  · rw [discover_workflows, List.mem_filter]
    simp [hmem, hk, hw]

theorem discovery_ignores_definition_site_witness :
    (importedTask ∈ importerModule.members) ∧
    ((importedTask.kind = MemberKind.function → importedTask.hasActivityAttr = true →
        importedTask ∈ discover_activities importerModule) ∧
     (importedTask.kind = MemberKind.pyClass → importedTask.hasWorkflowAttr = true →
        importedTask ∈ discover_workflows importerModule) ∧
     (discover_activities importerModule).length = 2 ∧
     importerModule.members.countP
       (fun x => x.definedInModule && x.kind == MemberKind.function
         && x.hasActivityAttr) = 1) :=
  ⟨by decide, discovery_ignores_definition_site importerModule importedTask (by decide)⟩

/-! ### Directory-scan aggregation (C7) -/

/-- The load outcome of one file, independent of the registry state. -/
def loadOutcome (p : PathInfo) (env : LoadEnv) : Except LoadError Module :=
  (load_module_from_path [] p env).2

theorem load_snd_eq (reg : Registry) (p : PathInfo) (env : LoadEnv) :
    (load_module_from_path reg p env).2 = loadOutcome p env := by
  unfold loadOutcome load_module_from_path
  split_ifs <;> try rfl
  cases env.execResult <;> rfl

/-- The activities one scanned file contributes to the aggregate. -/
def activitiesOf (f : ScanFile) : List Member :=
  match loadOutcome (scanPathInfo f) f.env with
  | .ok m => discover_activities m
  | .error _ => []

/-- The workflows one scanned file contributes to the aggregate. -/
def workflowsOf (f : ScanFile) : List Member :=
  match loadOutcome (scanPathInfo f) f.env with
  | .ok m => discover_workflows m
  | .error _ => []

/-- The error entry one scanned file contributes, if its load fails. -/
def errorOf (f : ScanFile) : Option FileError :=
  match loadOutcome (scanPathInfo f) f.env with
  | .ok _ => none
  | .error e => some ⟨f.pathStr, e.message⟩

/-- Whether loading a scanned file raises. -/
def loadFails (f : ScanFile) : Bool :=
  match loadOutcome (scanPathInfo f) f.env with
  | .ok _ => false
  | .error _ => true

theorem length_filterMap_eq_countP {α β : Type} (g : α → Option β) (l : List α) :
    (l.filterMap g).length = l.countP (fun a => (g a).isSome) := by
  induction l with
  | nil => rfl
  | cons a tl ih =>
    rw [List.filterMap_cons, List.countP_cons]
    cases hg : g a <;> simp [hg, ih]

theorem discover_all_spec (files : List ScanFile) : ∀ reg : Registry,
    (discover_all_in_directory reg files).2 =
      ⟨(files.filter (fun f => !skipsFile f)).flatMap activitiesOf,
       (files.filter (fun f => !skipsFile f)).flatMap workflowsOf,
       (files.filter (fun f => !skipsFile f)).filterMap errorOf⟩ := by
  induction files with
  | nil => intro reg; rfl
  | cons f rest ih =>
    intro reg
    by_cases hs : skipsFile f
    · simp only [discover_all_in_directory, hs, if_true, List.filter_cons,
        Bool.not_true, Bool.false_eq_true, ite_false]
      exact ih reg
    · simp only [discover_all_in_directory, hs, if_false, List.filter_cons,
        Bool.not_false, ite_true, List.flatMap_cons, List.filterMap_cons,
        Bool.false_eq_true]
      rcases hl : load_module_from_path reg (scanPathInfo f) f.env with ⟨reg1, res⟩
      have hres : res = loadOutcome (scanPathInfo f) f.env := by
        rw [← load_snd_eq reg (scanPathInfo f) f.env, hl]
      cases res with
      | ok m =>
        simp only [activitiesOf, workflowsOf, errorOf, ← hres]
        rw [ih reg1]
      | error e =>
        simp only [activitiesOf, workflowsOf, errorOf, ← hres]
        rw [ih reg1]
        simp

/-- A valid scanned file defining one activity. -/
def fileGoodA : ScanFile :=
  ⟨"proj/a.py", "a.py", "a",
   ⟨11, true, Except.ok ⟨[⟨"act_a", MemberKind.function, true, false, true⟩]⟩⟩⟩

/-- A scanned file whose body raises a syntax error on load. -/
def fileBad : ScanFile :=
  ⟨"proj/bad.py", "bad.py", "bad", ⟨12, true, Except.error "invalid syntax"⟩⟩

/-- A valid scanned file defining one workflow. -/
def fileGoodB : ScanFile :=
  ⟨"proj/b.py", "b.py", "b",
   ⟨13, true, Except.ok ⟨[⟨"WfB", MemberKind.pyClass, false, true, true⟩]⟩⟩⟩

/-- Claim C7: `discover_all_in_directory` never aborts because a contained
file fails to load: for every directory (every registry state and file
sequence), it returns exactly the activity and workflow candidates of
the successfully loaded non-skipped files plus exactly one error entry
per failing non-skipped file, keyed by that file's path; in particular a
tree with one syntax-error file between two valid files yields the two
valid files' candidates and exactly one error entry. -/
theorem discover_all_partial_failure (reg : Registry) (files : List ScanFile) :
    (discover_all_in_directory reg files).2 =
      ⟨(files.filter (fun f => !skipsFile f)).flatMap activitiesOf,
       (files.filter (fun f => !skipsFile f)).flatMap workflowsOf,
       (files.filter (fun f => !skipsFile f)).filterMap errorOf⟩ ∧
    ((discover_all_in_directory reg files).2).errors.length =
      (files.filter (fun f => !skipsFile f)).countP loadFails ∧
    (∀ err ∈ ((discover_all_in_directory reg files).2).errors,
      ∃ f ∈ files, skipsFile f = false ∧ err.file = f.pathStr) ∧
    (discover_all_in_directory [] [fileGoodA, fileBad, fileGoodB]).2 =
      ⟨[⟨"act_a", MemberKind.function, true, false, true⟩],
       [⟨"WfB", MemberKind.pyClass, false, true, true⟩],
       [⟨"proj/bad.py", "Error loading module proj/bad.py: invalid syntax"⟩]⟩ := by
  have hspec := discover_all_spec files reg
  refine ⟨hspec, ?_, ?_, by decide⟩
  · rw [hspec]
    dsimp only
    rw [length_filterMap_eq_countP]
    apply List.countP_congr
    intro f _
    unfold loadFails errorOf
    cases loadOutcome (scanPathInfo f) f.env <;> rfl
  · intro err herr
    rw [hspec] at herr
    dsimp only at herr
    rcases List.mem_filterMap.mp herr with ⟨f, hf, hof⟩
    rcases List.mem_filter.mp hf with ⟨hmem, hns⟩
    refine ⟨f, hmem, by simpa using hns, ?_⟩
    unfold errorOf at hof
    rcases hl : loadOutcome (scanPathInfo f) f.env with e | m <;> rw [hl] at hof
    · have h2 : some ({ file := f.pathStr, error := e.message } : FileError) = some err := hof
      rw [← Option.some.inj h2]
    · exact Option.noConfusion (hof : (none : Option FileError) = some err)

/-- Claim C8: `load_module_from_path` is atomic with respect to the module
registry on execution failure: for every path whose module body raises
during execution (under the loader's operating conditions — the file
exists, has the `.py` suffix, the spec is created, and the synthetic
name is not already registered, which is what the collision-resistant
name is for), the partial registration is removed before the error is
surfaced, the registry is unchanged by the failed call, and the
surfaced exception is a single `ImportError` wrapping the original
message. -/
theorem load_failure_leaves_registry_unchanged (reg : Registry) (p : PathInfo)
    (env : LoadEnv) (msg : String)
    (hex : p.existsOnDisk = true) (hsuf : p.suffix = ".py")
    (hspec : env.specOk = true) (hfail : env.execResult = Except.error msg)
    (hfresh : ∀ kv ∈ reg, kv.1 ≠ module_name p.stem env.pathId) :
    (load_module_from_path reg p env).1 = reg ∧
    (load_module_from_path reg p env).2 =
      Except.error (LoadError.importError (loadErrorMessage p.pathStr msg)) := by
  have hany : reg.any (fun kv => kv.1 == module_name p.stem env.pathId) = false := by
    rw [List.any_eq_false]
    intro kv hkv
    simpa using hfresh kv hkv
  have hset : regSet reg (module_name p.stem env.pathId) emptyModule =
      reg ++ [(module_name p.stem env.pathId, emptyModule)] := by
    rw [regSet, hany]
    simp
  have hdel : regDel (reg ++ [(module_name p.stem env.pathId, emptyModule)])
      (module_name p.stem env.pathId) = reg := by
    rw [regDel, List.filter_append]
    have h1 : reg.filter (fun kv => kv.1 != module_name p.stem env.pathId) = reg := by
      apply List.filter_eq_self.mpr
      intro kv hkv
      simpa using hfresh kv hkv
    have h2 : [(module_name p.stem env.pathId, emptyModule)].filter
        (fun kv => kv.1 != module_name p.stem env.pathId) = [] := by
      simp
    rw [h1, h2, List.append_nil]
  constructor
  · simp only [load_module_from_path, hex, hsuf, hspec, hfail, Bool.not_true,
      Bool.false_eq_true, if_false, bne_self_eq_false, ite_false]
    rw [hset, hdel]
  · simp only [load_module_from_path, hex, hsuf, hspec, hfail, Bool.not_true,
      Bool.false_eq_true, if_false, bne_self_eq_false, ite_false]

theorem load_failure_leaves_registry_unchanged_witness :
    ((⟨"svc/tasks.py", "tasks", ".py", true⟩ : PathInfo).existsOnDisk = true) ∧
    ((⟨"svc/tasks.py", "tasks", ".py", true⟩ : PathInfo).suffix = ".py") ∧
    ((⟨9042, true, Except.error "division by zero"⟩ : LoadEnv).specOk = true) ∧
    ((⟨9042, true, Except.error "division by zero"⟩ : LoadEnv).execResult =
      Except.error "division by zero") ∧
    ((load_module_from_path [] ⟨"svc/tasks.py", "tasks", ".py", true⟩
        ⟨9042, true, Except.error "division by zero"⟩).1 = [] ∧
     (load_module_from_path [] ⟨"svc/tasks.py", "tasks", ".py", true⟩
        ⟨9042, true, Except.error "division by zero"⟩).2 =
      Except.error (LoadError.importError
        (loadErrorMessage "svc/tasks.py" "division by zero"))) :=
  ⟨rfl, rfl, rfl, rfl,
   load_failure_leaves_registry_unchanged [] ⟨"svc/tasks.py", "tasks", ".py", true⟩
     ⟨9042, true, Except.error "division by zero"⟩ "division by zero"
     rfl rfl rfl rfl (by simp)⟩

/-- The path of a module loaded twice in one process. -/
def tasksPath : PathInfo := ⟨"svc/tasks.py", "tasks", ".py", true⟩

/-- The module contents produced by the first load. -/
def tasksModuleV1 : Module := ⟨[⟨"f_one", MemberKind.function, true, false, true⟩]⟩

/-- The module contents produced by the second load of the same path. -/
def tasksModuleV2 : Module := ⟨[⟨"f_two", MemberKind.function, true, false, true⟩]⟩

/-- Claim C9: The synthetic module name is `twiddle_loaded_{stem}_{id(path)}`
where `id(path)` is taken of a `Path` object that dies when the call
returns; Python guarantees `id` uniqueness only among simultaneously
alive objects, so a second load of the same path may receive the same
id.  Evaluating the loader at that failing input: both loads generate
the identical name and the second successful load overwrites the first
load's registration instead of registering under a fresh key — the
registry afterwards holds only the second module. -/
theorem module_name_id_reuse_overwrites :
    module_name tasksPath.stem 139865 = "twiddle_loaded_tasks_139865" ∧
    (load_module_from_path [] tasksPath ⟨139865, true, Except.ok tasksModuleV1⟩).1 =
      [("twiddle_loaded_tasks_139865", tasksModuleV1)] ∧
    (load_module_from_path
        (load_module_from_path [] tasksPath ⟨139865, true, Except.ok tasksModuleV1⟩).1
        tasksPath ⟨139865, true, Except.ok tasksModuleV2⟩).1 =
      [("twiddle_loaded_tasks_139865", tasksModuleV2)] := by
  refine ⟨rfl, rfl, ?_⟩
  decide

end Twiddle
